import Mathlib

/-!
Shallow embedding of two diagnostic scripts of the toolhive repository:
test_oauth_server.py, a challenge stub HTTP server, and test-mcp-client.py,
a JSON-RPC over HTTP prober. Pure functions model the handler and the main
flow; fallible network operations are modeled by explicit outcome data.
-/

/-- Python str.startswith, translated as a character list test on the
underlying data of the two strings. -/
def pyStartswith (s pre : String) : Bool :=
  pre.data.isPrefixOf s.data

/-- Case-insensitive first-match header lookup, as email.message.Message.get
which backs self.headers.get in BaseHTTPRequestHandler. -/
def headersGet (hs : List (String × String)) (name : String) : Option String :=
  (hs.find? (fun kv => kv.1.toLower == name.toLower)).map (fun kv => kv.2)

/-- Request methods the stub handler defines: do_GET and do_POST. -/
inductive Method where
  | GET
  | POST

/-- An incoming HTTP request as seen by the stub handler. -/
structure Request where
  method : Method
  path : String
  headers : List (String × String)
  body : String

/-- A response of the stub handler: status line, headers sent in order, body. -/
structure StubResponse where
  status : Nat
  headers : List (String × String)
  body : String

/-- Serialization of a flat string-to-string object the way json.dumps renders
it with default separators: comma-space between members, colon-space inside. -/
def pyDumps (kvs : List (String × String)) : String :=
  "\x7b" ++ String.intercalate ", "
    (kvs.map (fun kv => "\"" ++ kv.1 ++ "\": \"" ++ kv.2 ++ "\"")) ++ "\x7d"

/-- Condition on line 17 of test_oauth_server.py: auth_header is truthy and
starts with the literal word Bearer followed by one space. Python truthiness
of a string is being nonempty; absence of the header gives None, falsy. -/
def bearerCheck : Option String → Bool
  | none => false
  | some v => if v = "" then false else pyStartswith v "Bearer "

/-- Exact challenge header value sent on the unauthorized path. -/
def realmHeaderValue : String := "Bearer realm=\"http://localhost:8080/realms/master\""

/-- Success body dictionary, lines 22 to 25 of test_oauth_server.py. -/
def successBody : List (String × String) :=
  [("status", "authenticated"), ("message", "Access granted with token")]

/-- Challenge body dictionary, lines 37 to 40 of test_oauth_server.py. -/
def challengeBody : List (String × String) :=
  [("error", "unauthorized"), ("message", "Authentication required")]

/-- Embeds OAuthTestHandler.do_GET, test_oauth_server.py lines 13 to 41. -/
def do_GET (r : Request) : StubResponse :=
  let auth_header := headersGet r.headers "Authorization"
  if bearerCheck auth_header then
    { status := 200
      headers := [("Content-Type", "application/json")]
      body := pyDumps successBody }
  else
    { status := 401
      headers := [("WWW-Authenticate", realmHeaderValue), ("Content-Type", "application/json")]
      body := pyDumps challengeBody }

/-- Embeds OAuthTestHandler.do_POST, lines 43 to 45: same logic as GET. -/
def do_POST (r : Request) : StubResponse :=
  do_GET r

/-- Dispatch of the stub handler on the request method. -/
def handleRequest (r : Request) : StubResponse :=
  match r.method with
  | .GET => do_GET r
  | .POST => do_POST r

/-- A GET or POST request carrying one Authorization header with value v. -/
def reqWithAuth (m : Method) (v : String) : Request :=
  { method := m, path := "/", headers := [("Authorization", v)], body := "" }

/-- A GET request with no headers at all. -/
def reqNoAuth : Request :=
  { method := .GET, path := "/", headers := [], body := "" }

/-- JSON values, as the Python json module produces them: objects keep member
order, numbers here are the integers the prober uses. -/
inductive Json where
  | null
  | bool (b : Bool)
  | num (n : Int)
  | str (s : String)
  | arr (elems : List Json)
  | obj (members : List (String × Json))

/-- First-match key lookup in the member list of a JSON object. -/
def lookupKV : List (String × Json) → String → Option Json
  | [], _ => none
  | kv :: rest, key => if kv.1 = key then some kv.2 else lookupKV rest key

/-- Member access on a JSON value: some value for a key of an object. -/
def Json.get? : Json → String → Option Json
  | .obj kvs, key => lookupKV kvs key
  | _, _ => none

/-- Tests whether a JSON value is an object, the Python dict case. -/
def Json.isObj : Json → Bool
  | .obj _ => true
  | _ => false

/-- Hardcoded target of the prober, test-mcp-client.py line 13. -/
def SSE_URL : String := "http://127.0.0.1:8080"

/-- Request envelope construction, test-mcp-client.py lines 17 to 24: the
dict holds jsonrpc, id and method, and params is appended only when params
is not None. -/
def buildRequest (method : String) (params : Option Json) (request_id : Json) : Json :=
  match params with
  | none => .obj [("jsonrpc", .str "2.0"), ("id", request_id), ("method", .str method)]
  | some p =>
    .obj [("jsonrpc", .str "2.0"), ("id", request_id), ("method", .str method), ("params", p)]

/-- Locally synthesized error envelope of send_jsonrpc_request, lines 42 to 49
and 52 to 59 of test-mcp-client.py. -/
def errorEnvelope (request_id : Json) (message : String) : Json :=
  .obj [("jsonrpc", .str "2.0"), ("id", request_id),
        ("error", .obj [("code", .num (-32000)), ("message", .str message)])]

/-- Outcome of one requests.post call: resp carries the status code together
with what response.json would yield on the body (ok for a parse success,
error for the message of the parse exception); raised carries the message of
an exception out of the transport call itself. -/
inductive PostOutcome where
  | resp (status : Nat) (body : Except String Json)
  | raised (message : String)

/-- Embeds send_jsonrpc_request, test-mcp-client.py lines 30 to 59: on status
200 the parsed body is returned, and a parse failure is caught by the same
except clause as a transport failure; any other status yields the HTTP error
envelope; a transport exception yields the request error envelope. -/
def send_jsonrpc_request (method : String) (params : Option Json) (request_id : Json)
    (outcome : PostOutcome) : Json :=
  match outcome with
  | .resp status body =>
    if status = 200 then
      match body with
      | .ok parsed => parsed
      | .error e => errorEnvelope request_id ("Request error: " ++ e)
    else
      errorEnvelope request_id ("HTTP error: " ++ toString status)
  | .raised e => errorEnvelope request_id ("Request error: " ++ e)

/-- Parameters of the initialize call, lines 121 to 128 of test-mcp-client.py. -/
def init_params : Json :=
  .obj [("clientInfo", .obj [("name", .str "test-mcp-client"), ("version", .str "1.0.0")]),
        ("protocolVersion", .str "0.1.0"),
        ("capabilities", .obj [])]

/-- Parameters of the tool call, lines 145 to 150 of test-mcp-client.py. -/
def echo_params : Json :=
  .obj [("name", .str "echo"),
        ("arguments", .obj [("text", .str "Hello from test-mcp-client!")])]

/-- One console line of the prober: a plain message, or the pretty printed
JSON dump of a response. -/
inductive LogEntry where
  | msg (s : String)
  | jsonOut (j : Json)

/-- Outcome of one raw socket probe block: ok with the decoded received text,
or fail with the message of the exception the inner handler caught. -/
inductive SocketProbeOutcome where
  | ok (data : String)
  | fail (message : String)

/-- Log of one raw socket probe block, abstracting the per chunk byte count
lines: on success the block prints the waiting line, the response marker and
the decoded data; on a caught exception it prints the Socket error line and
execution continues. -/
def rawSocketProbeLog : SocketProbeOutcome → List LogEntry
  | .ok data => [.msg "Waiting for response...", .msg "Response:", .msg data]
  | .fail e => [.msg ("Socket error: " ++ e)]

/-- Environment of one prober run: the outcome of the first raw socket probe,
of the four requests.post calls, and of the final raw socket exchange. -/
structure ProberEnv where
  probe1 : SocketProbeOutcome
  call1 : PostOutcome
  call2 : PostOutcome
  call3 : PostOutcome
  call4 : PostOutcome
  probe2 : SocketProbeOutcome

/-- Message printed by the finally clause on line 225 of test-mcp-client.py. -/
def disconnectMsg : String := "\nDisconnected from MCP server"

/-- Body of main, test-mcp-client.py lines 63 to 216: the first socket probe
with its inner handler, the four structured calls whose failures are absorbed
inside send_jsonrpc_request, and the final socket exchange with its inner
handler. Returns the console log and the four structured responses. -/
def mainBody (env : ProberEnv) : List LogEntry × List Json :=
  let r1 := send_jsonrpc_request "initialize" (some init_params) (.num 1) env.call1
  let r2 := send_jsonrpc_request "tools/list" none (.num 1) env.call2
  let r3 := send_jsonrpc_request "resources/list" none (.num 1) env.call3
  let r4 := send_jsonrpc_request "tools/call" (some echo_params) (.num 1) env.call4
  ([.msg ("Connecting to MCP server via HTTP SSE: " ++ SSE_URL),
    .msg "Using a direct socket connection:"]
   ++ rawSocketProbeLog env.probe1
   ++ [.msg "Connected to MCP server via HTTP SSE",
       .msg "\nInitialization response:", .jsonOut r1,
       .msg "\nTools list response:", .jsonOut r2,
       .msg "\nResources list response:", .jsonOut r3,
       .msg "\nEcho tool response:", .jsonOut r4,
       .msg "\nSending JSON-RPC request using a socket:"]
   ++ rawSocketProbeLog env.probe2,
   [r1, r2, r3, r4])

/-- How the body of main ends: normally, or raising a RequestException of the
requests library, or raising any other exception. -/
inductive BodyOutcome where
  | ok
  | raisedRequestException (message : String)
  | raisedOther (message : String)

/-- Observable result of the whole process: console log and exit status. -/
structure MainResult where
  log : List LogEntry
  exitCode : Nat

/-- Top level handlers of main, test-mcp-client.py lines 218 to 225: a
RequestException prints the SSE connection error and exits 1, any other
exception prints the generic error and exits 1, and the finally clause prints
the disconnect message on every path, after the handler of that path. -/
def mainTop (outcome : BodyOutcome) (bodyLog : List LogEntry) : MainResult :=
  match outcome with
  | .ok =>
    { log := bodyLog ++ [.msg disconnectMsg], exitCode := 0 }
  | .raisedRequestException e =>
    { log := bodyLog ++ [.msg ("Error connecting to SSE endpoint: " ++ e), .msg disconnectMsg]
      exitCode := 1 }
  | .raisedOther e =>
    { log := bodyLog ++ [.msg ("Error: " ++ e), .msg disconnectMsg]
      exitCode := 1 }

/-- The whole prober process. Every fallible operation modeled in ProberEnv
is guarded by an inner handler in the body (the socket blocks by their own
except clauses, the posts inside send_jsonrpc_request), so the body completes
normally on every environment and the top level takes the normal path. -/
def pythonMain (env : ProberEnv) : MainResult :=
  mainTop BodyOutcome.ok (mainBody env).1

/-- Substring containment on the underlying character data. -/
def strContainsSub (s sub : String) : Prop :=
  ∃ before after, s.data = before ++ sub.data ++ after

/-- Environment where the initialize call is answered with status 500 and
everything else succeeds. -/
def envHttp500 : ProberEnv :=
  { probe1 := .ok ""
    call1 := .resp 500 (.ok (.obj []))
    call2 := .resp 200 (.ok (.obj []))
    call3 := .resp 200 (.ok (.obj []))
    call4 := .resp 200 (.ok (.obj []))
    probe2 := .ok "" }

/-- Environment where the first socket probe fails with connection refused
and everything else succeeds. -/
def envRefused : ProberEnv :=
  { probe1 := .fail "Connection refused"
    call1 := .resp 200 (.ok (.obj []))
    call2 := .resp 200 (.ok (.obj []))
    call3 := .resp 200 (.ok (.obj []))
    call4 := .resp 200 (.ok (.obj []))
    probe2 := .ok "" }

theorem headersGet_auth_single (v : String) :
    headersGet [("Authorization", v)] "Authorization" = some v := by
  simp [headersGet, List.find?]

theorem pyStartswith_bearer_ne_empty (v : String)
    (h : pyStartswith v "Bearer " = true) : v ≠ "" := by
  intro hv
  subst hv
  exact absurd h (by decide)

theorem bearerCheck_some (v : String) :
    bearerCheck (some v) = pyStartswith v "Bearer " := by
  by_cases hv : v = ""
  · subst hv
    decide
  · simp [bearerCheck, hv]

theorem handleRequest_eq_do_GET (r : Request) : handleRequest r = do_GET r := by
  cases r with
  | mk m p hs b => cases m <;> rfl

theorem handleRequest_of_bearerCheck_false (r : Request)
    (hb : bearerCheck (headersGet r.headers "Authorization") = false) :
    handleRequest r =
      { status := 401
        headers := [("WWW-Authenticate", realmHeaderValue), ("Content-Type", "application/json")]
        body := pyDumps challengeBody } := by
  rw [handleRequest_eq_do_GET]
  simp [do_GET, hb]

theorem handleRequest_of_bearerCheck_true (r : Request)
    (hb : bearerCheck (headersGet r.headers "Authorization") = true) :
    handleRequest r =
      { status := 200
        headers := [("Content-Type", "application/json")]
        body := pyDumps successBody } := by
  rw [handleRequest_eq_do_GET]
  simp [do_GET, hb]

/-- Claim C1: every request whose authorization value is absent or does not
start with the bearer prefix gets status 401 with the challenge header
carrying the exact realm string, and every request whose authorization value
starts with the bearer prefix gets status 200 with no challenge header. -/
theorem claim_C1_stub_challenge (r : Request) :
    ((headersGet r.headers "Authorization" = none ∨
      (∃ v, headersGet r.headers "Authorization" = some v ∧
        pyStartswith v "Bearer " = false)) →
      (handleRequest r).status = 401 ∧
      ("WWW-Authenticate", realmHeaderValue) ∈ (handleRequest r).headers) ∧
    (∀ v, headersGet r.headers "Authorization" = some v →
      pyStartswith v "Bearer " = true →
      (handleRequest r).status = 200 ∧
      ∀ w, ("WWW-Authenticate", w) ∉ (handleRequest r).headers) := by
  constructor
  · intro h
    have hb : bearerCheck (headersGet r.headers "Authorization") = false := by
      rcases h with h | ⟨v, hv, hf⟩
      · rw [h]; rfl
      · rw [hv, bearerCheck_some, hf]
    rw [handleRequest_of_bearerCheck_false r hb]
    simp
  · intro v hv ht
    have hb : bearerCheck (headersGet r.headers "Authorization") = true := by
      rw [hv, bearerCheck_some, ht]
    rw [handleRequest_of_bearerCheck_true r hb]
    refine ⟨rfl, ?_⟩
    intro w
    simp

/-- Concrete instantiation of claim C1: a bearer token gets 200, a request
with no Authorization header gets 401 with the challenge header. -/
theorem claim_C1_stub_challenge_witness :
    (handleRequest (reqWithAuth .GET "Bearer abc123")).status = 200 ∧
    (handleRequest reqNoAuth).status = 401 ∧
    ("WWW-Authenticate", realmHeaderValue) ∈ (handleRequest reqNoAuth).headers := by
  refine ⟨?_, ?_, ?_⟩
  · exact ((claim_C1_stub_challenge (reqWithAuth .GET "Bearer abc123")).2
      "Bearer abc123" (headersGet_auth_single "Bearer abc123") (by decide)).1
  · exact ((claim_C1_stub_challenge reqNoAuth).1 (Or.inl rfl)).1
  · exact ((claim_C1_stub_challenge reqNoAuth).1 (Or.inl rfl)).2

/-- Claim C4: for the same path, headers and body, the handling of a POST is
identical to the handling of a GET. -/
theorem claim_C4_post_eq_get (p : String) (hs : List (String × String)) (b : String) :
    handleRequest { method := .POST, path := p, headers := hs, body := b } =
    handleRequest { method := .GET, path := p, headers := hs, body := b } := rfl

/-- Claim C5: the response body of the stub server is exactly one of the two
documented JSON serializations, the success one under the bearer check and
the challenge one otherwise. -/
theorem claim_C5_stub_bodies (r : Request) :
    ((handleRequest r).body =
        "\x7b\"status\": \"authenticated\", \"message\": \"Access granted with token\"\x7d" ∨
     (handleRequest r).body =
        "\x7b\"error\": \"unauthorized\", \"message\": \"Authentication required\"\x7d") ∧
    pyDumps successBody =
      "\x7b\"status\": \"authenticated\", \"message\": \"Access granted with token\"\x7d" ∧
    pyDumps challengeBody =
      "\x7b\"error\": \"unauthorized\", \"message\": \"Authentication required\"\x7d" := by
  refine ⟨?_, rfl, rfl⟩
  by_cases hb : bearerCheck (headersGet r.headers "Authorization") = true
  · left
    rw [handleRequest_of_bearerCheck_true r hb]
    rfl
  · right
    rw [handleRequest_of_bearerCheck_false r (by simpa using hb)]
    rfl

/-- Claim C9: the bearer check demands the literal prefix of the word Bearer
followed by a space: the bare word gets 401 with the challenge, the word
followed by any character other than a space gets 401 with the challenge,
and the word followed by just the space, an empty token, gets 200. -/
theorem claim_C9_literal_space :
    ((handleRequest (reqWithAuth .GET "Bearer")).status = 401 ∧
     ("WWW-Authenticate", realmHeaderValue) ∈
        (handleRequest (reqWithAuth .GET "Bearer")).headers) ∧
    (∀ (c : Char) (rest : List Char), c ≠ ' ' →
      (handleRequest (reqWithAuth .GET
          (String.mk ('B' :: 'e' :: 'a' :: 'r' :: 'e' :: 'r' :: c :: rest)))).status = 401 ∧
      ("WWW-Authenticate", realmHeaderValue) ∈
        (handleRequest (reqWithAuth .GET
          (String.mk ('B' :: 'e' :: 'a' :: 'r' :: 'e' :: 'r' :: c :: rest)))).headers) ∧
    ((handleRequest (reqWithAuth .GET "Bearer ")).status = 200 ∧
     ∀ w, ("WWW-Authenticate", w) ∉ (handleRequest (reqWithAuth .GET "Bearer ")).headers) := by
  refine ⟨?_, ?_, ?_⟩
  · have hb : bearerCheck (headersGet (reqWithAuth .GET "Bearer").headers "Authorization")
        = false := by
      have h1 : (reqWithAuth .GET "Bearer").headers = [("Authorization", "Bearer")] := rfl
      rw [h1, headersGet_auth_single, bearerCheck_some]
      decide
    rw [handleRequest_of_bearerCheck_false _ hb]
    simp
  · intro c rest hc
    have hs : pyStartswith (String.mk ('B' :: 'e' :: 'a' :: 'r' :: 'e' :: 'r' :: c :: rest))
        "Bearer " = false := by
      have hd : "Bearer ".data = ['B', 'e', 'a', 'r', 'e', 'r', ' '] := rfl
      have hcc : (' ' == c) = false := by
        simp [hc.symm]
      simp [pyStartswith, hd, List.isPrefixOf, hcc]
    have hb : bearerCheck (headersGet (reqWithAuth .GET
        (String.mk ('B' :: 'e' :: 'a' :: 'r' :: 'e' :: 'r' :: c :: rest))).headers
        "Authorization") = false := by
      have : (reqWithAuth .GET
          (String.mk ('B' :: 'e' :: 'a' :: 'r' :: 'e' :: 'r' :: c :: rest))).headers =
          [("Authorization", String.mk ('B' :: 'e' :: 'a' :: 'r' :: 'e' :: 'r' :: c :: rest))] :=
        rfl
      rw [this, headersGet_auth_single, bearerCheck_some, hs]
    rw [handleRequest_of_bearerCheck_false _ hb]
    simp
  · have hb : bearerCheck (headersGet (reqWithAuth .GET "Bearer ").headers "Authorization")
        = true := by
      have h1 : (reqWithAuth .GET "Bearer ").headers = [("Authorization", "Bearer ")] := rfl
      rw [h1, headersGet_auth_single, bearerCheck_some]
      decide
    rw [handleRequest_of_bearerCheck_true _ hb]
    refine ⟨rfl, ?_⟩
    intro w
    simp

/-- Concrete instantiation of claim C9: the word Bearer followed by the
letter X instead of a space is treated as unauthenticated. -/
theorem claim_C9_literal_space_witness :
    (handleRequest (reqWithAuth .GET
        (String.mk ['B', 'e', 'a', 'r', 'e', 'r', 'X']))).status = 401 :=
  (claim_C9_literal_space.2.1 'X' [] (by decide)).1

/-- Claim C10: the response of the stub server is a function of the looked up
authorization value alone: any two requests that agree on it, whatever their
method, path, body or other headers, receive identical responses. -/
theorem claim_C10_auth_determines (r1 r2 : Request)
    (h : headersGet r1.headers "Authorization" = headersGet r2.headers "Authorization") :
    handleRequest r1 = handleRequest r2 := by
  rw [handleRequest_eq_do_GET, handleRequest_eq_do_GET]
  simp only [do_GET, h]

/-- Concrete instantiation of claim C10: a GET with an extra header and a
POST with a different path and body but the same authorization value get the
same response. -/
theorem claim_C10_auth_determines_witness :
    handleRequest
        (Request.mk .GET "/a" [("Authorization", "Bearer t"), ("X-Other", "1")] "") =
    handleRequest (Request.mk .POST "/b" [("Authorization", "Bearer t")] "zzz") :=
  claim_C10_auth_determines _ _ (by simp [headersGet, List.find?])

/-- Claim C2: a transport exception or a non 200 status makes
send_jsonrpc_request return the locally synthesized envelope whose id is the
correlation id and whose error member has code -32000 and the descriptive
message; an initialize call answered with status 500 is printed as exactly
such an envelope and the remaining calls still run. -/
theorem claim_C2_error_envelope (method : String) (params : Option Json) (request_id : Json) :
    (∀ e, send_jsonrpc_request method params request_id (.raised e) =
        errorEnvelope request_id ("Request error: " ++ e)) ∧
    (∀ status body, status ≠ 200 →
        send_jsonrpc_request method params request_id (.resp status body) =
        errorEnvelope request_id ("HTTP error: " ++ toString status)) ∧
    (∀ m, (errorEnvelope request_id m).get? "id" = some request_id ∧
        ((errorEnvelope request_id m).get? "error").bind (fun j => j.get? "code") =
          some (.num (-32000)) ∧
        ((errorEnvelope request_id m).get? "error").bind (fun j => j.get? "message") =
          some (.str m)) ∧
    (∀ (env : ProberEnv) (body : Except String Json), env.call1 = .resp 500 body →
        LogEntry.jsonOut (errorEnvelope (.num 1) "HTTP error: 500") ∈ (mainBody env).1 ∧
        (mainBody env).2.length = 4) := by
  refine ⟨fun e => rfl, ?_, fun m => ⟨rfl, rfl, rfl⟩, ?_⟩
  · intro status body h
    simp only [send_jsonrpc_request, if_neg h]
  · intro env body h
    have h500 : ("HTTP error: " ++ toString (500 : Nat)) = "HTTP error: 500" := rfl
    constructor
    · simp only [mainBody, h, send_jsonrpc_request]
      norm_num [h500]
    · rfl

/-- Concrete instantiation of claim C2: with the initialize call answered by
status 500 the error envelope appears in the log and four responses exist. -/
theorem claim_C2_error_envelope_witness :
    LogEntry.jsonOut (errorEnvelope (.num 1) "HTTP error: 500") ∈ (mainBody envHttp500).1 ∧
    (mainBody envHttp500).2.length = 4 :=
  (claim_C2_error_envelope "initialize" (some init_params) (.num 1)).2.2.2
    envHttp500 (.ok (.obj [])) rfl

/-- Claim C3: the modeled process exits with status 0 on every environment,
because every modeled failure is absorbed by an inner handler; a
RequestException reaching the top level would exit with status 1; a failing
first socket probe logs the Socket error line and the four structured calls
still produce their responses. -/
theorem claim_C3_exit_codes :
    (∀ env : ProberEnv, (pythonMain env).exitCode = 0) ∧
    (∀ e bodyLog, (mainTop (.raisedRequestException e) bodyLog).exitCode = 1) ∧
    (∀ (env : ProberEnv) (m : String), env.probe1 = .fail m →
      LogEntry.msg ("Socket error: " ++ m) ∈ (pythonMain env).log ∧
      (mainBody env).2.length = 4) := by
  refine ⟨fun env => rfl, fun e l => rfl, ?_⟩
  intro env m h
  refine ⟨?_, rfl⟩
  simp [pythonMain, mainTop, mainBody, rawSocketProbeLog, h]

/-- Concrete instantiation of claim C3: connection refused in the first probe
is logged and all four structured responses still exist. -/
theorem claim_C3_exit_codes_witness :
    LogEntry.msg ("Socket error: " ++ "Connection refused") ∈ (pythonMain envRefused).log ∧
    (mainBody envRefused).2.length = 4 :=
  claim_C3_exit_codes.2.2 envRefused "Connection refused" rfl

/-- Claim C6: the structured phase performs exactly the four calls, in the
order initialize, tools list, resources list, tool call with the echo tool
and its text argument; every built envelope carries the version marker, the
correlation id, the method name, and a params member exactly when parameters
were supplied. -/
theorem claim_C6_four_calls (env : ProberEnv) :
    (mainBody env).2 =
      [send_jsonrpc_request "initialize" (some init_params) (.num 1) env.call1,
       send_jsonrpc_request "tools/list" none (.num 1) env.call2,
       send_jsonrpc_request "resources/list" none (.num 1) env.call3,
       send_jsonrpc_request "tools/call" (some echo_params) (.num 1) env.call4] ∧
    (∀ m p i, (buildRequest m p i).get? "jsonrpc" = some (.str "2.0") ∧
       (buildRequest m p i).get? "id" = some i ∧
       (buildRequest m p i).get? "method" = some (.str m) ∧
       (buildRequest m p i).get? "params" = p) ∧
    echo_params.get? "name" = some (.str "echo") ∧
    (echo_params.get? "arguments").bind (fun j => j.get? "text") =
      some (.str "Hello from test-mcp-client!") := by
  refine ⟨rfl, ?_, rfl, rfl⟩
  intro m p i
  cases p <;> exact ⟨rfl, rfl, rfl, rfl⟩

/-- Claim C7: on every exit path of the prober, normal completion, a
RequestException, or any other top level exception, the disconnect message
is the last printed line. -/
theorem claim_C7_disconnect_last :
    (∀ (o : BodyOutcome) (bodyLog : List LogEntry),
      (mainTop o bodyLog).log.getLast? = some (.msg disconnectMsg)) ∧
    (∀ env : ProberEnv, (pythonMain env).log.getLast? = some (.msg disconnectMsg)) ∧
    strContainsSub disconnectMsg "Disconnected from MCP server" := by
  refine ⟨?_, ?_, ?_⟩
  · intro o l
    cases o <;> simp [mainTop]
  · intro env
    simp [pythonMain, mainTop]
  · exact ⟨['\n'], [], by decide⟩

/-- Claim C8 counterexample: a status 200 response whose body parses to the
JSON number 42 is returned as is, so send_jsonrpc_request does not always
return a dictionary. -/
theorem claim_C8_counterexample :
    (send_jsonrpc_request "initialize" none (.num 1)
        (.resp 200 (.ok (.num 42)))).isObj = false := rfl

/-- Claim C8 amended: send_jsonrpc_request is total over every modeled server
behavior: a status 200 response returns the parsed body as is, which need
not be a dictionary; a body that fails to parse is caught by the same except
clause as the transport call and yields the synthesized envelope with code
-32000 and a Request error message; a transport exception does the same. -/
theorem claim_C8_total (method : String) (params : Option Json) (request_id : Json) :
    (∀ j, send_jsonrpc_request method params request_id (.resp 200 (.ok j)) = j) ∧
    (∀ e, send_jsonrpc_request method params request_id (.resp 200 (.error e)) =
        errorEnvelope request_id ("Request error: " ++ e) ∧
      ((errorEnvelope request_id ("Request error: " ++ e)).get? "error").bind
          (fun j => j.get? "code") = some (.num (-32000)) ∧
      strContainsSub ("Request error: " ++ e) "Request error: ") ∧
    (∀ e, send_jsonrpc_request method params request_id (.raised e) =
        errorEnvelope request_id ("Request error: " ++ e)) := by
  refine ⟨fun j => rfl, fun e => ⟨rfl, rfl, ⟨[], e.data, ?_⟩⟩, fun e => rfl⟩
  simp
